import Mathlib

/-!
Verification development for the BOUT-spack package recipes.

The repository consists of three Spack recipe files:
  * `packages/boutpp/package.py` (class `Boutpp`)
  * `packages/hermes-3/package.py` (class `Hermes3`, older revision)
  * `spack_repo/bout/packages/hermes_3/package.py` (class `Hermes3`, newer revision)

Each file declares variants, dependencies conditioned on variants, and a
`cmake_args` method mapping the resolved variant selection to an ordered
list of build-system definitions.  The recipes are pure data riding on the
external package manager (Spack); the specification abstracts that engine
as three components (VariantRegistry, ConditionEvaluator, ArgumentCompiler).
Below, the *declared data* (variants, argument mappings, dependency specs)
is embedded faithfully from the source files, while the *engine* operations
(`resolve`, `evalCond`, `filterDeps`, `compile`) are modelled from the spec,
since the engine itself is not part of this repository.
-/

set_option autoImplicit false

/-- A resolved or requested variant value: a boolean (boolean variant), a
single string (single-select variant), or an ordered list of strings
(multi-select variant, as Spack stores a tuple of selected values). -/
inductive VValue where
  | b (x : Bool)
  | s (x : String)
  | multi (xs : List String)
  deriving DecidableEq, Repr

/-- The allowed value domain of a variant: the boolean domain, or an
explicitly enumerated ordered set of strings (the `values=(...)` tuple). -/
inductive VDomain where
  | boolean
  | strings (allowed : List String)
  deriving DecidableEq, Repr

/-- A declared variant: name, allowed value set, default value, and the
multi-select flag.  This is the `VariantSpec` of the spec; the optional
validator (used only by the newer hermes-3 recipe) is modelled separately
by `check_pkg_available` / `resolveHermes3New`. -/
structure VariantSpec where
  name : String
  dom : VDomain
  defaultVal : VValue
  multi : Bool
  deriving DecidableEq, Repr

/-- A resolved configuration: a mapping from every declared variant name to
its concrete value, represented as an association list in declaration
order. -/
abbrev Config := List (String × VValue)

/-- The typed error kinds of the spec's resolution engine. -/
inductive EngineError where
  | DuplicateVariant (name : String)
  | UnknownVariant (name : String)
  | InvalidValue (name : String)
  | UnresolvedReference (name : String)
  | ConflictingDefinition (flag : String)
  | ValidatorRejected (msg : String)
  deriving DecidableEq, Repr

/-- A `when=` condition on a dependency, parsed into the spec's small typed
expression tree: `+name`, `~name`, `name=value`, a version constraint, or a
conjunction. -/
inductive Cond where
  | always
  | variantTrue (name : String)
  | variantFalse (name : String)
  | variantEq (name value : String)
  | versionIs (v : String)
  | and (c1 c2 : Cond)
  deriving DecidableEq, Repr

/-- A `depends_on` declaration: the target spec string, the usage kinds
(`type=`), and the optional condition (`when=`; absent means always). -/
structure DependencySpec where
  target : String
  types : List String
  cond : Cond
  deriving DecidableEq, Repr

/-- A value passed to CMake via `self.define` / `self.define_from_variant`:
either a boolean or a string. -/
inductive CmakeVal where
  | b (x : Bool)
  | s (x : String)
  deriving DecidableEq, Repr

/-- The optional value-transform of an `ArgumentMapping`: pass the resolved
value through unchanged, or compare the first selected value of a
multi-select variant against a sentinel (used by `Boutpp.cmake_args` for
`BOUT_TESTS` and `BOUT_ENABLE_ALL_TESTS`). -/
inductive Transform where
  | id
  | firstNe (sentinel : String)
  | firstEq (sentinel : String)
  deriving DecidableEq, Repr

/-- An argument mapping: a fixed `(flag, value)` definition (`self.define`
with a literal), or a flag whose value is the resolved value of a named
variant, through a transform (`self.define_from_variant`, or `self.define`
applied to an expression over one variant's value). -/
inductive ArgumentMapping where
  | fixed (flag : String) (val : CmakeVal)
  | fromVariant (flag : String) (variantName : String) (t : Transform)
  deriving DecidableEq, Repr

/-- The flag name a mapping targets. -/
def mappingFlag : ArgumentMapping → String
  | .fixed f _ => f
  | .fromVariant f _ _ => f

/-- Looks up a declared variant by name. -/
def findSpec (specs : List VariantSpec) (n : String) : Option VariantSpec :=
  specs.find? (fun v => v.name == n)

/-- Modelled from the spec: domain membership of a requested value.  A
boolean variant accepts booleans; a single-select variant accepts one
allowed string; a multi-select variant accepts a nonempty sequence of
allowed strings, each element validated independently. -/
def valueInDomain (d : VDomain) (multi : Bool) (v : VValue) : Bool :=
  match d, v with
  | .boolean, .b _ => true
  | .strings allowed, .s x => !multi && allowed.contains x
  | .strings allowed, .multi xs => multi && !xs.isEmpty && xs.all allowed.contains
  | _, _ => false

/-- The first requested name that was never declared, if any. -/
def badName (specs : List VariantSpec) (req : List (String × VValue)) : Option String :=
  (req.find? (fun p => (findSpec specs p.fst).isNone)).map Prod.fst

/-- The first requested entry whose value is outside its variant's declared
domain, if any. -/
def badValue (specs : List VariantSpec) (req : List (String × VValue)) : Option String :=
  (req.find? (fun p =>
    match findSpec specs p.fst with
    | some v => !(valueInDomain v.dom v.multi p.snd)
    | none => false)).map Prod.fst

/-- Modelled from the spec: the VariantRegistry `resolve` step (the engine
is not part of this repository).  It fills every declared variant with the
explicit request value if present, otherwise the declared default; it fails
with `UnknownVariant` if a requested name was never declared and with
`InvalidValue` if a requested value is outside the declared domain. -/
def resolve (specs : List VariantSpec) (req : List (String × VValue)) :
    Except EngineError Config :=
  match badName specs req with
  | some n => .error (.UnknownVariant n)
  | none =>
    match badValue specs req with
    | some n => .error (.InvalidValue n)
    | none => .ok (specs.map (fun v => (v.name, ((req.lookup v.name).getD v.defaultVal))))

/-- Modelled from the spec: the ConditionEvaluator (the engine is not part
of this repository).  Pure evaluation of a condition against a resolved
configuration and version; a reference to a variant absent from the
configuration fails with `UnresolvedReference` rather than silently
evaluating false. -/
def evalCond (cfg : Config) (version : String) : Cond → Except EngineError Bool
  | .always => .ok true
  | .variantTrue n =>
    match cfg.lookup n with
    | some (.b x) => .ok x
    | some _ => .ok false
    | none => .error (.UnresolvedReference n)
  | .variantFalse n =>
    match cfg.lookup n with
    | some (.b x) => .ok (!x)
    | some _ => .ok false
    | none => .error (.UnresolvedReference n)
  | .variantEq n val =>
    match cfg.lookup n with
    | some (.s x) => .ok (x == val)
    | some (.multi xs) => .ok (xs.contains val)
    | some (.b _) => .ok false
    | none => .error (.UnresolvedReference n)
  | .versionIs v => .ok (version == v)
  | .and c1 c2 =>
    match evalCond cfg version c1, evalCond cfg version c2 with
    | .ok a, .ok b => .ok (a && b)
    | .error e, _ => .error e
    | _, .error e => .error e

/-- Modelled from the spec: dependency filtering by the ArgumentCompiler.
A dependency is included iff its condition evaluates true against the
resolved configuration; declaration order is preserved. -/
def filterDeps (cfg : Config) (version : String) :
    List DependencySpec → Except EngineError (List DependencySpec)
  | [] => .ok []
  | d :: ds =>
    match evalCond cfg version d.cond, filterDeps cfg version ds with
    | .ok true, .ok rest => .ok (d :: rest)
    | .ok false, .ok rest => .ok rest
    | .error e, _ => .error e
    | .ok _, .error e => .error e

/-- Applies a mapping's transform to a resolved variant value.  `.id` on a
multi-select value joins the selected values with a semicolon (the CMake
list separator); the sentinel transforms compare the first selected value
(`value[0]` in the source) against the sentinel. -/
def applyTransform : Transform → VValue → CmakeVal
  | .id, .b x => .b x
  | .id, .s x => .s x
  | .id, .multi xs => .s (String.intercalate ";" xs)
  | .firstNe sent, .multi xs => .b (!(xs.headD "" == sent))
  | .firstNe sent, .s x => .b (!(x == sent))
  | .firstNe _, .b x => .b x
  | .firstEq sent, .multi xs => .b (xs.headD "" == sent)
  | .firstEq sent, .s x => .b (x == sent)
  | .firstEq _, .b _ => .b false

/-- Compiles one argument mapping against a resolved configuration: fixed
values pass through unchanged; variant-backed mappings resolve the
variant's value through the transform, failing with `UnresolvedReference`
if the variant is not bound. -/
def compileOne (cfg : Config) : ArgumentMapping → Except EngineError (String × CmakeVal)
  | .fixed f v => .ok (f, v)
  | .fromVariant f n t =>
    match cfg.lookup n with
    | some v => .ok (f, applyTransform t v)
    | none => .error (.UnresolvedReference n)

/-- Compiles an ordered sequence of mappings, preserving order. -/
def compileList (cfg : Config) : List ArgumentMapping → Except EngineError (List (String × CmakeVal))
  | [] => .ok []
  | m :: ms =>
    match compileOne cfg m, compileList cfg ms with
    | .ok p, .ok ps => .ok (p :: ps)
    | .error e, _ => .error e
    | .ok _, .error e => .error e

/-- Reports a flag targeted by this fixed mapping and a later fixed mapping
with a different value. -/
def conflictWith : ArgumentMapping → List ArgumentMapping → Option String
  | .fixed f v, ms =>
    if ms.any (fun m =>
      match m with
      | .fixed g w => f == g && !(v == w)
      | _ => false)
    then some f else none
  | _, _ => none

/-- The first flag name assigned two different fixed values by two
mappings, if any. -/
def findConflict : List ArgumentMapping → Option String
  | [] => none
  | m :: ms =>
    match conflictWith m ms with
    | some f => some f
    | none => findConflict ms

/-- Modelled from the spec: the ArgumentCompiler `compile` step (the engine
is not part of this repository).  It rejects the artifact with
`ConflictingDefinition` when two mappings assign different fixed values to
the same flag, and otherwise emits one `(flag, value)` pair per mapping in
declaration order. -/
def compile (cfg : Config) (ms : List ArgumentMapping) :
    Except EngineError (List (String × CmakeVal)) :=
  match findConflict ms with
  | some f => .error (.ConflictingDefinition f)
  | none => compileList cfg ms

/-- Every variant-backed mapping references a variant bound in the
configuration. -/
def refsBound (cfg : Config) (ms : List ArgumentMapping) : Bool :=
  ms.all (fun m =>
    match m with
    | .fromVariant _ n _ => (cfg.lookup n).isSome
    | .fixed _ _ => true)

/-- Modelled from the spec: the full resolution pipeline, from declared
specs and a requested selection to the resolved configuration, compiled
argument list and filtered dependency set. -/
def resolveAndCompile (specs : List VariantSpec) (ms : List ArgumentMapping)
    (ds : List DependencySpec) (version : String) (req : List (String × VValue)) :
    Except EngineError (Config × List (String × CmakeVal) × List DependencySpec) :=
  match resolve specs req with
  | .error e => .error e
  | .ok cfg =>
    match compile cfg ms, filterDeps cfg version ds with
    | .ok args, .ok deps => .ok (cfg, args, deps)
    | .error e, _ => .error e
    | .ok _, .error e => .error e

namespace Boutpp

/-- The variants declared by `Boutpp` (`packages/boutpp/package.py`,
lines 34-80), in declaration order, with the declared domains and
defaults. -/
def variants : List VariantSpec := [
  ⟨"adios2", .boolean, .b false, false⟩,
  ⟨"backtrace", .boolean, .b true, false⟩,
  ⟨"builddocs", .boolean, .b false, false⟩,
  ⟨"buildexamples", .boolean, .b false, false⟩,
  ⟨"buildtests", .strings ["all", "default", "none"], .multi ["none"], true⟩,
  ⟨"caliper", .boolean, .b false, false⟩,
  ⟨"check", .strings ["0", "1", "2", "3", "4"], .multi ["2"], true⟩,
  ⟨"cuda", .boolean, .b false, false⟩,
  ⟨"fftw", .boolean, .b true, false⟩,
  ⟨"hypre", .boolean, .b false, false⟩,
  ⟨"lapack", .boolean, .b false, false⟩,
  ⟨"metric3d", .boolean, .b false, false⟩,
  ⟨"netcdf", .boolean, .b true, false⟩,
  ⟨"openmp", .boolean, .b false, false⟩,
  ⟨"petsc", .boolean, .b false, false⟩,
  ⟨"python", .boolean, .b false, false⟩,
  ⟨"raja", .boolean, .b false, false⟩,
  ⟨"sanitize_address", .boolean, .b false, false⟩,
  ⟨"sanitize_leak", .boolean, .b false, false⟩,
  ⟨"sanitize_memory", .boolean, .b false, false⟩,
  ⟨"sanitize_thread", .boolean, .b false, false⟩,
  ⟨"sanitize_undefined", .boolean, .b false, false⟩,
  ⟨"scorep", .boolean, .b false, false⟩,
  ⟨"slepc", .boolean, .b false, false⟩,
  ⟨"shared", .boolean, .b true, false⟩,
  ⟨"sigfpe", .boolean, .b false, false⟩,
  ⟨"signal", .boolean, .b true, false⟩,
  ⟨"sundials", .boolean, .b false, false⟩,
  ⟨"track", .boolean, .b true, false⟩,
  ⟨"umpire", .boolean, .b false, false⟩]

/-- The `variant_defs` dictionary of `Boutpp.cmake_args` (lines 128-157):
definition name to variant name, in insertion order. -/
def variant_defs : List (String × String) := [
  ("BOUT_USE_ADIOS2", "adios2"),
  ("BOUT_ENABLE_BACKTRACE", "backtrace"),
  ("BOUT_BUILD_DOCS", "builddocs"),
  ("BOUT_BUILD_EXAMPLES", "buildexamples"),
  ("BOUT_ENABLE_CALIPER", "caliper"),
  ("CHECK", "check"),
  ("BOUT_ENABLE_CUDA", "cuda"),
  ("BOUT_USE_HYPRE", "hypre"),
  ("BOUT_USE_LAPACK", "lapack"),
  ("BOUT_ENABLE_METRIC_3D", "metric3d"),
  ("BOUT_USE_NETCDF", "netcdf"),
  ("BOUT_ENABLE_OPENMP", "openmp"),
  ("BOUT_USE_PETSC", "petsc"),
  ("BOUT_ENABLE_PYTHON", "python"),
  ("BOUT_ENABLE_RAJA", "raja"),
  ("ENABLE_SANITIZER_ADDRESS", "sanitize_address"),
  ("ENABLE_SANITIZER_LEAK", "sanitize_leak"),
  ("ENABLE_SANITIZER_MEMORY", "sanitize_memory"),
  ("ENABLE_SANITIZER_THREAD", "sanitize_thread"),
  ("ENABLE_SANITIZER_UNDEFINED_BEH", "sanitize_undefined"),
  ("BOUT_USE_SCOREP", "scorep"),
  ("BOUT_USE_SLEPC", "slepc"),
  ("BUILD_SHARED_LIBS", "shared"),
  ("BOUT_ENABLE_SIGFPE", "sigfpe"),
  ("BOUT_ENABLE_SIGNAL", "signal"),
  ("BOUT_USE_SUNDIALS", "sundials"),
  ("BOUT_ENABLE_TRACK", "track"),
  ("BOUT_ENABLE_UMPIRE", "umpire")]

/-- The `variant_args` list of `Boutpp.cmake_args`: one
`define_from_variant` per `variant_defs` entry, followed by the two
appended definitions derived from the `buildtests` multi-select value
(lines 163-175: `BOUT_TESTS` is true iff `value[0] != "none"`, and
`BOUT_ENABLE_ALL_TESTS` is true iff `value[0] == "all"`). -/
def variant_args : List ArgumentMapping :=
  variant_defs.map (fun p => .fromVariant p.fst p.snd .id)
  ++ [.fromVariant "BOUT_TESTS" "buildtests" (.firstNe "none"),
      .fromVariant "BOUT_ENABLE_ALL_TESTS" "buildtests" (.firstEq "all")]

/-- The `fixed_args` list of `Boutpp.cmake_args` (lines 178-199), in order,
including the `BOUT_USE_NLS` definition appended after the literal list. -/
def fixed_args : List ArgumentMapping := [
  .fixed "BOUT_DOWNLOAD_ADIOS2" (.b false),
  .fixed "BOUT_DOWNLOAD_NETCDF_CXX4" (.b false),
  .fixed "BOUT_DOWNLOAD_SUNDIALS" (.b false),
  .fixed "BOUT_ENABLE_MPI" (.b true),
  .fixed "BOUT_GENERATE_FIELDOPS" (.b false),
  .fixed "BOUT_IGNORE_CONDA_ENV" (.b true),
  .fixed "BOUT_UPDATE_GIT_SUBMODULE" (.b true),
  .fixed "BOUT_USE_PVODE" (.b true),
  .fixed "INSTALL_GTEST" (.b false),
  .fixed "BOUT_USE_NLS" (.b false)]

/-- The ordered mapping sequence assembled by `Boutpp.cmake_args`
(lines 201-206): `args = fixed_args + variant_args`. -/
def cmake_args_mappings : List ArgumentMapping :=
  fixed_args ++ variant_args

/-- The compiled argument list of `Boutpp.cmake_args` for a resolved
configuration. -/
def cmake_args (cfg : Config) : Except EngineError (List (String × CmakeVal)) :=
  compile cfg cmake_args_mappings

/-- The resolved configuration for an empty requested selection: every
variant at its declared default. -/
def defaultConfig : Config :=
  variants.map (fun v => (v.name, v.defaultVal))

/-- The compiled argument list at the default configuration. -/
def defaultArgs : List (String × CmakeVal) :=
  (cmake_args defaultConfig).toOption.getD []

end Boutpp

namespace Hermes3Old

/-- The variants declared by the older `Hermes3` recipe
(`packages/hermes-3/package.py`, lines 33-47), in declaration order. -/
def variants : List VariantSpec := [
  ⟨"limiter", .strings ["MC", "MinMod"], .s "MC", false⟩,
  ⟨"petsc", .boolean, .b false, false⟩,
  ⟨"bout-sundials", .boolean, .b false, false⟩,
  ⟨"sundials", .boolean, .b true, false⟩,
  ⟨"xhermes", .boolean, .b true, false⟩]

/-- The PETSc dependency of the older `Hermes3` recipe (lines 61-63):
`petsc+hypre+mpi~debug~fortran`, conditioned on `+petsc`. -/
def petsc_dep : DependencySpec :=
  ⟨"petsc+hypre+mpi~debug~fortran", ["build", "link", "run"], .variantTrue "petsc"⟩

/-- The dependencies declared by the older `Hermes3` recipe (lines 49-68),
in declaration order: seven unconditional, then three conditioned on
variants. -/
def deps : List DependencySpec := [
  ⟨"cmake@3.24:", ["build"], .always⟩,
  ⟨"fftw", ["build", "link", "run"], .always⟩,
  ⟨"mpi", ["build", "link", "run"], .always⟩,
  ⟨"netcdf-cxx4", ["build", "link", "run"], .always⟩,
  ⟨"py-cython", ["build", "link", "run"], .always⟩,
  ⟨"py-jinja2", ["build", "link", "run"], .always⟩,
  ⟨"py-netcdf4", ["build", "link", "run"], .always⟩,
  petsc_dep,
  ⟨"py-xhermes", ["build", "link", "run"], .variantTrue "xhermes"⟩,
  ⟨"sundials", ["build", "link", "run"], .variantTrue "sundials"⟩]

/-- The `binary_def_variants` dictionary of the older `Hermes3.cmake_args`
(lines 72-77) as an ordered mapping sequence; this recipe has no fixed
arguments, so `args` is exactly these four `define_from_variant` calls. -/
def cmake_args_mappings : List ArgumentMapping := [
  .fromVariant "BOUT_DOWNLOAD_SUNDIALS" "bout-sundials" .id,
  .fromVariant "HERMES_SLOPE_LIMITER" "limiter" .id,
  .fromVariant "BOUT_USE_PETSC" "petsc" .id,
  .fromVariant "BOUT_USE_SUNDIALS" "sundials" .id]

/-- The resolved configuration for an empty requested selection. -/
def defaultConfig : Config :=
  variants.map (fun v => (v.name, v.defaultVal))

end Hermes3Old

namespace Hermes3New

/-- The variants declared by the newer `Hermes3` recipe
(`spack_repo/bout/packages/hermes_3/package.py`, lines 51-66), in
declaration order.  The `vantagereactions` variant additionally carries the
custom validator `check_pkg_available`, modelled by `resolveHermes3New`. -/
def variants : List VariantSpec := [
  ⟨"limiter", .strings ["MC", "MinMod"], .s "MC", false⟩,
  ⟨"xhermes", .boolean, .b true, false⟩,
  ⟨"vantagereactions", .boolean, .b false, false⟩]

/-- The unconditional dependencies of the newer `Hermes3` recipe
(lines 68-73), plus the `py-xhermes` dependency conditioned on
`+xhermes`. -/
def base_deps : List DependencySpec := [
  ⟨"cmake@3.24:", ["build"], .always⟩,
  ⟨"fftw", ["build", "link"], .always⟩,
  ⟨"mpi", ["build", "link", "run"], .always⟩,
  ⟨"boutpp", ["build", "link"], .always⟩,
  ⟨"netcdf-cxx4", ["build", "link"], .always⟩,
  ⟨"py-boutdata@0.3.0:", ["run"], .always⟩,
  ⟨"py-xhermes", ["run"], .variantTrue "xhermes"⟩]

/-- The VANTAGE-Reactions dependency (line 78), conditioned on
`+vantagereactions`; it is declared only when the package is known to the
surrounding repository (the `if vantagereactions_pkg_available():` guard on
line 77). -/
def vantage_dep : DependencySpec :=
  ⟨"vantagereactions", ["build", "link"], .variantTrue "vantagereactions"⟩

/-- The ordered mapping sequence assembled by the newer
`Hermes3.cmake_args` (lines 80-98): `args = fixed_args + variant_args`. -/
def cmake_args_mappings : List ArgumentMapping := [
  .fixed "HERMES_BUILD_BOUT" (.b false),
  .fromVariant "HERMES_SLOPE_LIMITER" "limiter" .id,
  .fromVariant "HERMES_USE_VANTAGE" "vantagereactions" .id]

end Hermes3New

/-- A single-quote character as a string, used to reproduce the quoting in
the validator's error message. -/
def squote : String := String.mk [Char.ofNat 39]

/-- The error message raised by `check_pkg_available` for an unknown
package (newer hermes-3 recipe, lines 16-18), including the extra note for
the `vantagereactions` variant. -/
def pkg_notfound_msg (variant_name : String) : String :=
  "Package " ++ squote ++ variant_name ++ squote
    ++ " does not exist in any known package repository."
    ++ (if variant_name == "vantagereactions" then
          "\nNote that building hermes-3 with +vantagereactions currently requires spack to be pointed to the packages inside a local copy of the https://github.com/UKAEA-Edge-Code/VANTAGE-Reactions git repo."
        else "")

/-- The validator of the newer `Hermes3` recipe (lines 12-23).  The lookup
`spack.repo.PATH.exists` consults external state and is modelled as the
explicit function argument `pkgExists`; raising `InstallError` is modelled
as the `ValidatorRejected` engine error carrying the message. -/
def check_pkg_available (pkgExists : String → Bool) (variant_name : String)
    (raise_on_notfound : Bool) : Except EngineError Bool :=
  if !(pkgExists variant_name) then
    if raise_on_notfound then
      .error (.ValidatorRejected (pkg_notfound_msg variant_name))
    else
      .ok false
  else
    .ok true

/-- The module-level availability probe of the newer `Hermes3` recipe
(lines 26-27): the validator with `raise_on_notfound=False`. -/
def vantagereactions_pkg_available (pkgExists : String → Bool) : Bool :=
  match check_pkg_available pkgExists "vantagereactions" false with
  | .ok b => b
  | .error _ => false

/-- The dependency list of the newer `Hermes3` recipe as a function of the
external repository state: the VANTAGE-Reactions dependency is declared
only when `vantagereactions_pkg_available()` holds (lines 77-78). -/
def hermes3NewDeps (pkgExists : String → Bool) : List DependencySpec :=
  Hermes3New.base_deps
    ++ (if vantagereactions_pkg_available pkgExists then [Hermes3New.vantage_dep] else [])

/-- Modelled from the spec: resolution for the newer `Hermes3` recipe with
the custom validator attached to `vantagereactions` — when a value for that
variant is requested, the validator's verdict is authoritative for its
acceptance, so the validator runs (with `raise_on_notfound=True`) before
the registry fills and checks the rest of the selection. -/
def resolveHermes3New (pkgExists : String → Bool) (req : List (String × VValue)) :
    Except EngineError Config :=
  match req.lookup "vantagereactions" with
  | some _ =>
    match check_pkg_available pkgExists "vantagereactions" true with
    | .error e => .error e
    | .ok _ => resolve Hermes3New.variants req
  | none => resolve Hermes3New.variants req

deriving instance DecidableEq for Except

theorem compileOne_fst {cfg : Config} {m : ArgumentMapping} {p : String × CmakeVal}
    (h : compileOne cfg m = .ok p) : p.fst = mappingFlag m := by
  cases m with
  | fixed f v =>
    simp only [compileOne] at h
    cases h
    rfl
  | fromVariant f n t =>
    simp only [compileOne] at h
    cases hl : List.lookup n cfg with
    | none => rw [hl] at h; cases h
    | some v => rw [hl] at h; cases h; rfl

theorem compileList_map_fst {cfg : Config} :
    ∀ {ms : List ArgumentMapping} {out : List (String × CmakeVal)},
      compileList cfg ms = .ok out → out.map Prod.fst = ms.map mappingFlag := by
  intro ms
  induction ms with
  | nil =>
    intro out h
    simp only [compileList] at h
    cases h
    rfl
  | cons m ms ih =>
    intro out h
    simp only [compileList] at h
    cases hm : compileOne cfg m with
    | error e => rw [hm] at h; cases h
    | ok p =>
      rw [hm] at h
      cases hms : compileList cfg ms with
      | error e => rw [hms] at h; cases h
      | ok ps =>
        rw [hms] at h
        cases h
        simp only [List.map_cons]
        rw [compileOne_fst hm, ih hms]

theorem compileList_mem {cfg : Config} {m : ArgumentMapping} {p : String × CmakeVal} :
    ∀ {ms : List ArgumentMapping} {out : List (String × CmakeVal)},
      compileList cfg ms = .ok out → m ∈ ms → compileOne cfg m = .ok p → p ∈ out := by
  intro ms
  induction ms with
  | nil => intro out _ hm; cases hm
  | cons a as ih =>
    intro out h hm hp
    simp only [compileList] at h
    cases ha : compileOne cfg a with
    | error e => rw [ha] at h; cases h
    | ok q =>
      rw [ha] at h
      cases has : compileList cfg as with
      | error e => rw [has] at h; cases h
      | ok qs =>
        rw [has] at h
        cases h
        cases hm with
        | head =>
          rw [hp] at ha
          cases ha
          exact List.mem_cons_self _ _
        | tail _ hm2 =>
          exact List.mem_cons_of_mem _ (ih has hm2 hp)

theorem compileList_ok_of_refsBound {cfg : Config} :
    ∀ {ms : List ArgumentMapping}, refsBound cfg ms = true →
      ∃ out, compileList cfg ms = .ok out := by
  intro ms
  induction ms with
  | nil => intro _; exact ⟨[], rfl⟩
  | cons m ms ih =>
    intro h
    simp only [refsBound, List.all_cons, Bool.and_eq_true] at h
    obtain ⟨hok, hrest⟩ := h
    obtain ⟨out, hout⟩ := ih hrest
    cases m with
    | fixed f v =>
      exact ⟨(f, v) :: out, by simp only [compileList, compileOne, hout]⟩
    | fromVariant f n t =>
      have hok2 : (List.lookup n cfg).isSome = true := hok
      cases hl : List.lookup n cfg with
      | none => rw [hl] at hok2; cases hok2
      | some v =>
        refine ⟨(f, applyTransform t v) :: out, ?_⟩
        simp only [compileList, compileOne, hl, hout]

/-- The resolved boutpp configuration for the request `buildtests=all`. -/
def Boutpp.allTestsConfig : Config :=
  (resolve Boutpp.variants [("buildtests", VValue.multi ["all"])]).toOption.getD []

/-- The compiled boutpp argument list at `Boutpp.allTestsConfig`. -/
def Boutpp.allTestsArgs : List (String × CmakeVal) :=
  (Boutpp.cmake_args Boutpp.allTestsConfig).toOption.getD []

/-- The resolved configuration of the older hermes-3 recipe for the request
`petsc=true`. -/
def Hermes3Old.petscConfig : Config :=
  (resolve Hermes3Old.variants [("petsc", VValue.b true)]).toOption.getD []

/-- The resolved configuration of the older hermes-3 recipe for the request
`bout-sundials=true`. -/
def Hermes3Old.boutSundialsConfig : Config :=
  (resolve Hermes3Old.variants [("bout-sundials", VValue.b true)]).toOption.getD []

/-- The compiled argument list of the older hermes-3 recipe at its default
configuration. -/
def Hermes3Old.defaultArgs : List (String × CmakeVal) :=
  (compile Hermes3Old.defaultConfig Hermes3Old.cmake_args_mappings).toOption.getD []

/-- The compiled argument list of the older hermes-3 recipe at
`Hermes3Old.boutSundialsConfig`. -/
def Hermes3Old.boutSundialsArgs : List (String × CmakeVal) :=
  (compile Hermes3Old.boutSundialsConfig Hermes3Old.cmake_args_mappings).toOption.getD []

/-- A mapping with a fixed value (`self.define` applied to a literal). -/
def isFixedMapping : ArgumentMapping → Bool
  | .fixed _ _ => true
  | .fromVariant _ _ _ => false

/-- A variant-backed mapping with the identity transform
(`self.define_from_variant`). -/
def isVariantBacked : ArgumentMapping → Bool
  | .fromVariant _ _ .id => true
  | _ => false

/-- Extracts the underlying `compileList` equation from a successful
`compile`. -/
theorem compile_ok_compileList {cfg : Config} {ms : List ArgumentMapping}
    {out : List (String × CmakeVal)} (h : compile cfg ms = .ok out) :
    compileList cfg ms = .ok out := by
  cases hfc : findConflict ms with
  | some f => rw [compile, hfc] at h; cases h
  | none => simpa only [compile, hfc] using h

/-- C1: With the multi-select variant `buildtests` (domain
`{all, default, none}`, default `none`), `Boutpp.cmake_args` derives
`BOUT_TESTS` as (first selected value is not `"none"`) and
`BOUT_ENABLE_ALL_TESTS` as (first selected value is `"all"`): every
successfully compiled configuration with `buildtests=all` contains
`("BOUT_TESTS", true)` and `("BOUT_ENABLE_ALL_TESTS", true)`, and the
default selection yields `("BOUT_TESTS", false)` and
`("BOUT_ENABLE_ALL_TESTS", false)`. -/
theorem boutpp_buildtests_mapping
    (cfg : Config) (out : List (String × CmakeVal))
    (hb : cfg.lookup "buildtests" = some (VValue.multi ["all"]))
    (hc : Boutpp.cmake_args cfg = .ok out) :
    findSpec Boutpp.variants "buildtests"
      = some ⟨"buildtests", .strings ["all", "default", "none"], .multi ["none"], true⟩
    ∧ ("BOUT_TESTS", CmakeVal.b true) ∈ out
    ∧ ("BOUT_ENABLE_ALL_TESTS", CmakeVal.b true) ∈ out
    ∧ ("BOUT_TESTS", CmakeVal.b false) ∈ Boutpp.defaultArgs
    ∧ ("BOUT_ENABLE_ALL_TESTS", CmakeVal.b false) ∈ Boutpp.defaultArgs := by
  have hcl : compileList cfg Boutpp.cmake_args_mappings = .ok out :=
    compile_ok_compileList hc
  refine ⟨by decide, ?_, ?_, by decide, by decide⟩
  · refine compileList_mem hcl (m := .fromVariant "BOUT_TESTS" "buildtests" (.firstNe "none"))
      (by decide) ?_
    simp only [compileOne, hb]
    rfl
  · refine compileList_mem hcl
      (m := .fromVariant "BOUT_ENABLE_ALL_TESTS" "buildtests" (.firstEq "all"))
      (by decide) ?_
    simp only [compileOne, hb]
    rfl

/-- Witness for C1 at the concrete request `buildtests=all`. -/
theorem boutpp_buildtests_mapping_witness :
    ("BOUT_TESTS", CmakeVal.b true) ∈ Boutpp.allTestsArgs
    ∧ ("BOUT_ENABLE_ALL_TESTS", CmakeVal.b true) ∈ Boutpp.allTestsArgs := by
  have h := boutpp_buildtests_mapping Boutpp.allTestsConfig Boutpp.allTestsArgs
    (by decide) (by decide)
  exact ⟨h.2.1, h.2.2.1⟩

/-- C2: The multi-select variant `check` has domain `{0,1,2,3,4}` and
default `"2"`, and compiling the `CHECK -> check` mapping with no requested
override yields the definition `("CHECK", "2")` in the compiled argument
list. -/
theorem boutpp_check_default_definition :
    findSpec Boutpp.variants "check"
      = some ⟨"check", .strings ["0", "1", "2", "3", "4"], .multi ["2"], true⟩
    ∧ ("CHECK", "check") ∈ Boutpp.variant_defs
    ∧ resolve Boutpp.variants [] = .ok Boutpp.defaultConfig
    ∧ Boutpp.cmake_args Boutpp.defaultConfig = .ok Boutpp.defaultArgs
    ∧ ("CHECK", CmakeVal.s "2") ∈ Boutpp.defaultArgs := by decide

/-- C3: The older hermes-3 recipe declares the boolean variant `petsc`
(default false) and the dependency `petsc+hypre+mpi~debug~fortran`
conditioned on `+petsc`; resolving with no override yields a filtered
dependency set that excludes the PETSc dependency, and resolving with
`petsc=true` yields one that includes it (here: all declared
dependencies, since the other conditioned variants default to true). -/
theorem hermes3_petsc_dependency_filtering :
    findSpec Hermes3Old.variants "petsc" = some ⟨"petsc", .boolean, .b false, false⟩
    ∧ resolve Hermes3Old.variants [] = .ok Hermes3Old.defaultConfig
    ∧ filterDeps Hermes3Old.defaultConfig "master" Hermes3Old.deps
        = .ok (Hermes3Old.deps.filter (fun d => !(d == Hermes3Old.petsc_dep)))
    ∧ Hermes3Old.petsc_dep ∉ Hermes3Old.deps.filter (fun d => !(d == Hermes3Old.petsc_dep))
    ∧ resolve Hermes3Old.variants [("petsc", VValue.b true)] = .ok Hermes3Old.petscConfig
    ∧ filterDeps Hermes3Old.petscConfig "master" Hermes3Old.deps = .ok Hermes3Old.deps
    ∧ Hermes3Old.petsc_dep ∈ Hermes3Old.deps := by decide

/-- C4: The compiled argument list preserves the declaration order of the
argument mappings — a successful compilation emits exactly one definition
per mapping, with the flag names in exactly the order the mappings were
declared. -/
theorem compile_preserves_declaration_order
    (cfg : Config) (ms : List ArgumentMapping) (out : List (String × CmakeVal))
    (h : compile cfg ms = .ok out) :
    out.map Prod.fst = ms.map mappingFlag := by
  exact compileList_map_fst (compile_ok_compileList h)

/-- Witness for C4 at the boutpp mapping sequence and default
configuration. -/
theorem compile_preserves_declaration_order_witness :
    Boutpp.defaultArgs.map Prod.fst = Boutpp.cmake_args_mappings.map mappingFlag :=
  compile_preserves_declaration_order Boutpp.defaultConfig Boutpp.cmake_args_mappings
    Boutpp.defaultArgs (by decide)

/-- C5: Two mappings that assign conflicting fixed values to the same flag
(here both targeting `BOUT_USE_SUNDIALS`, with `true` and `false`) make
compilation fail with `ConflictingDefinition` at assembly time; on every
input without such a conflict (and whose variant references are bound in
the resolved configuration), compilation succeeds. -/
theorem conflicting_definition_rejected :
    (∀ cfg : Config,
      compile cfg [ArgumentMapping.fixed "BOUT_USE_SUNDIALS" (CmakeVal.b true),
                   ArgumentMapping.fixed "BOUT_USE_SUNDIALS" (CmakeVal.b false)]
        = .error (.ConflictingDefinition "BOUT_USE_SUNDIALS"))
    ∧ (∀ (cfg : Config) (ms : List ArgumentMapping),
        findConflict ms = none → refsBound cfg ms = true →
        ∃ out, compile cfg ms = .ok out) := by
  constructor
  · intro cfg
    rfl
  · intro cfg ms hnc hrb
    obtain ⟨out, hout⟩ := compileList_ok_of_refsBound hrb
    refine ⟨out, ?_⟩
    simpa only [compile, hnc] using hout

/-- Witness for C5: the concrete conflicting pair is rejected, and the
conflict-free boutpp mapping sequence compiles at the default
configuration. -/
theorem conflicting_definition_rejected_witness :
    compile [] [ArgumentMapping.fixed "BOUT_USE_SUNDIALS" (CmakeVal.b true),
                ArgumentMapping.fixed "BOUT_USE_SUNDIALS" (CmakeVal.b false)]
      = .error (.ConflictingDefinition "BOUT_USE_SUNDIALS")
    ∧ ∃ out, compile Boutpp.defaultConfig Boutpp.cmake_args_mappings = .ok out :=
  ⟨conflicting_definition_rejected.1 [],
   conflicting_definition_rejected.2 Boutpp.defaultConfig Boutpp.cmake_args_mappings
     (by decide) (by decide)⟩

/-- C6 counterexample: in no recipe revision is `BOUT_DOWNLOAD_SUNDIALS` a
fixed mapping with value true — boutpp declares it as fixed *false*, the
older hermes-3 recipe drives it by the `bout-sundials` variant (default
false), and the newer recipe does not emit it at all; at the default
selection each revision that emits it emits false. -/
theorem bout_download_sundials_never_fixed_true :
    ArgumentMapping.fixed "BOUT_DOWNLOAD_SUNDIALS" (CmakeVal.b true)
      ∉ Boutpp.cmake_args_mappings
    ∧ ArgumentMapping.fixed "BOUT_DOWNLOAD_SUNDIALS" (CmakeVal.b true)
      ∉ Hermes3Old.cmake_args_mappings
    ∧ ArgumentMapping.fixed "BOUT_DOWNLOAD_SUNDIALS" (CmakeVal.b true)
      ∉ Hermes3New.cmake_args_mappings
    ∧ ("BOUT_DOWNLOAD_SUNDIALS", CmakeVal.b false) ∈ Boutpp.defaultArgs
    ∧ ("BOUT_DOWNLOAD_SUNDIALS", CmakeVal.b false) ∈ Hermes3Old.defaultArgs
    ∧ "BOUT_DOWNLOAD_SUNDIALS" ∉ Hermes3New.cmake_args_mappings.map mappingFlag := by
  decide

/-- C6 (amended): across the recipe revisions `BOUT_DOWNLOAD_SUNDIALS` is
emitted with flipped semantics — boutpp emits it as a fixed mapping that is
always *false* for every variant selection, while the older hermes-3
recipe drives it by the declared `bout-sundials` variant, so the two
revisions' compiled argument lists are not equivalent for this flag: with
`bout-sundials=true` the older recipe emits `(BOUT_DOWNLOAD_SUNDIALS,
true)` while boutpp emits `(BOUT_DOWNLOAD_SUNDIALS, false)`. -/
theorem bout_download_sundials_drift
    (cfg : Config) (out : List (String × CmakeVal))
    (h : Boutpp.cmake_args cfg = .ok out) :
    ("BOUT_DOWNLOAD_SUNDIALS", CmakeVal.b false) ∈ out
    ∧ ArgumentMapping.fixed "BOUT_DOWNLOAD_SUNDIALS" (CmakeVal.b false)
        ∈ Boutpp.cmake_args_mappings
    ∧ ArgumentMapping.fromVariant "BOUT_DOWNLOAD_SUNDIALS" "bout-sundials" Transform.id
        ∈ Hermes3Old.cmake_args_mappings
    ∧ compile Hermes3Old.boutSundialsConfig Hermes3Old.cmake_args_mappings
        = .ok Hermes3Old.boutSundialsArgs
    ∧ ("BOUT_DOWNLOAD_SUNDIALS", CmakeVal.b true) ∈ Hermes3Old.boutSundialsArgs := by
  refine ⟨?_, by decide, by decide, by decide, by decide⟩
  exact compileList_mem (compile_ok_compileList h)
    (m := .fixed "BOUT_DOWNLOAD_SUNDIALS" (CmakeVal.b false)) (by decide) rfl

/-- Witness for C6 at the default boutpp configuration. -/
theorem bout_download_sundials_drift_witness :
    ("BOUT_DOWNLOAD_SUNDIALS", CmakeVal.b false) ∈ Boutpp.defaultArgs
    ∧ ("BOUT_DOWNLOAD_SUNDIALS", CmakeVal.b true) ∈ Hermes3Old.boutSundialsArgs := by
  have h := bout_download_sundials_drift Boutpp.defaultConfig Boutpp.defaultArgs (by decide)
  exact ⟨h.1, h.2.2.2.2⟩

/-- C7: Resolution and compilation are deterministic — the engine is a pure
function from (declared specs, requested selection) to (resolved
configuration, compiled argument list, filtered dependency set), so
resolving twice with identical input yields identical output; the one
consult of external state in the repository (the `vantagereactions`
availability probe of the newer hermes-3 recipe) enters only as the
explicit `pkgExists` input to the declared dependency list. -/
theorem resolution_deterministic :
    ∀ (pkgExists : String → Bool) (specs : List VariantSpec)
      (ms : List ArgumentMapping) (ds : List DependencySpec)
      (version : String) (req : List (String × VValue)),
      resolve specs req = resolve specs req
      ∧ resolveAndCompile specs ms ds version req
          = resolveAndCompile specs ms ds version req
      ∧ resolveAndCompile specs ms (hermes3NewDeps pkgExists) version req
          = resolveAndCompile specs ms (hermes3NewDeps pkgExists) version req :=
  fun _ _ _ _ _ _ => ⟨rfl, rfl, rfl⟩

/-- C8: When a value is requested for the `vantagereactions` variant, the
custom validator `check_pkg_available` is authoritative: if the referenced
package is unknown to the surrounding repository, resolution rejects with
the descriptive message (which names the variant and carries the note on
how to make the package available); if it is known, the validator accepts
and resolution proceeds as usual. -/
theorem vantagereactions_validator_authoritative
    (pkgExists : String → Bool) (req : List (String × VValue)) (v : VValue)
    (hreq : req.lookup "vantagereactions" = some v) :
    (pkgExists "vantagereactions" = false →
      resolveHermes3New pkgExists req
        = .error (.ValidatorRejected (pkg_notfound_msg "vantagereactions"))
      ∧ "vantagereactions".toList <:+: (pkg_notfound_msg "vantagereactions").toList)
    ∧ (pkgExists "vantagereactions" = true →
      resolveHermes3New pkgExists req = resolve Hermes3New.variants req) := by
  constructor
  · intro hf
    refine ⟨?_, by decide⟩
    simp only [resolveHermes3New, hreq, check_pkg_available, hf, Bool.not_false, if_true]
  · intro ht
    simp only [resolveHermes3New, hreq, check_pkg_available, ht, Bool.not_true,
      Bool.false_eq_true, if_false]

/-- Witness for C8 at a concrete request and the two repository states. -/
theorem vantagereactions_validator_authoritative_witness :
    resolveHermes3New (fun _ => false) [("vantagereactions", VValue.b true)]
      = .error (.ValidatorRejected (pkg_notfound_msg "vantagereactions"))
    ∧ resolveHermes3New (fun _ => true) [("vantagereactions", VValue.b true)]
      = resolve Hermes3New.variants [("vantagereactions", VValue.b true)] := by
  have h1 := vantagereactions_validator_authoritative (fun _ => false)
    [("vantagereactions", VValue.b true)] (VValue.b true) rfl
  have h2 := vantagereactions_validator_authoritative (fun _ => true)
    [("vantagereactions", VValue.b true)] (VValue.b true) rfl
  exact ⟨(h1.1 rfl).1, h2.2 rfl⟩

/-- C9: For every set of declared variants, resolving an empty requested
selection yields the configuration mapping each variant to its declared
default; in particular boutpp resolves to `petsc=false`, `fftw=true`,
`netcdf=true`, `check="2"`, `buildtests="none"`, `shared=true` (and so on
for all declared variants), and likewise for both hermes-3 revisions. -/
theorem resolve_empty_request_yields_defaults :
    (∀ specs : List VariantSpec,
      resolve specs [] = .ok (specs.map (fun v => (v.name, v.defaultVal))))
    ∧ resolve Boutpp.variants [] = .ok Boutpp.defaultConfig
    ∧ Boutpp.defaultConfig.lookup "petsc" = some (VValue.b false)
    ∧ Boutpp.defaultConfig.lookup "fftw" = some (VValue.b true)
    ∧ Boutpp.defaultConfig.lookup "netcdf" = some (VValue.b true)
    ∧ Boutpp.defaultConfig.lookup "check" = some (VValue.multi ["2"])
    ∧ Boutpp.defaultConfig.lookup "buildtests" = some (VValue.multi ["none"])
    ∧ Boutpp.defaultConfig.lookup "shared" = some (VValue.b true)
    ∧ resolve Hermes3Old.variants [] = .ok Hermes3Old.defaultConfig
    ∧ resolve Hermes3New.variants []
        = .ok (Hermes3New.variants.map (fun v => (v.name, v.defaultVal))) :=
  ⟨fun _ => rfl, by decide, by decide, by decide, by decide, by decide, by decide,
   by decide, by decide, by decide⟩

/-- C10 counterexample: `Boutpp.cmake_args` assembles 28 variant-backed
definitions (the `fftw` variant has no corresponding entry in
`variant_defs`), not 29, so the total number of emitted flag names is 40,
not the 41 the claim's count implies. -/
theorem boutpp_variant_backed_count_is_28 :
    List.countP isVariantBacked Boutpp.cmake_args_mappings = 28
    ∧ ¬(List.countP isVariantBacked Boutpp.cmake_args_mappings = 29)
    ∧ (Boutpp.cmake_args_mappings.map mappingFlag).length = 40
    ∧ ¬((Boutpp.cmake_args_mappings.map mappingFlag).length = 10 + 29 + 2)
    ∧ "fftw" ∈ Boutpp.variants.map VariantSpec.name
    ∧ "fftw" ∉ Boutpp.variant_defs.map Prod.snd := by decide

/-- C10 (amended): for every variant selection on which `Boutpp.cmake_args`
succeeds, the compiled list carries each flag name exactly once and its
flag-name sequence is the same fixed 40-element set — 10 fixed definitions,
28 variant-backed definitions, plus `BOUT_TESTS` and
`BOUT_ENABLE_ALL_TESTS` — independent of the selected values. -/
theorem boutpp_flag_set_fixed
    (cfg : Config) (out : List (String × CmakeVal))
    (h : Boutpp.cmake_args cfg = .ok out) :
    out.map Prod.fst = Boutpp.cmake_args_mappings.map mappingFlag
    ∧ (Boutpp.cmake_args_mappings.map mappingFlag).Nodup
    ∧ (Boutpp.cmake_args_mappings.map mappingFlag).length = 40
    ∧ List.countP isFixedMapping Boutpp.cmake_args_mappings = 10
    ∧ List.countP isVariantBacked Boutpp.cmake_args_mappings = 28
    ∧ ArgumentMapping.fromVariant "BOUT_TESTS" "buildtests" (Transform.firstNe "none")
        ∈ Boutpp.cmake_args_mappings
    ∧ ArgumentMapping.fromVariant "BOUT_ENABLE_ALL_TESTS" "buildtests" (Transform.firstEq "all")
        ∈ Boutpp.cmake_args_mappings := by
  exact ⟨compileList_map_fst (compile_ok_compileList h), by decide, by decide,
    by decide, by decide, by decide, by decide⟩

/-- Witness for C10 at the default boutpp configuration. -/
theorem boutpp_flag_set_fixed_witness :
    Boutpp.defaultArgs.map Prod.fst = Boutpp.cmake_args_mappings.map mappingFlag
    ∧ (Boutpp.cmake_args_mappings.map mappingFlag).Nodup := by
  have h := boutpp_flag_set_fixed Boutpp.defaultConfig Boutpp.defaultArgs (by decide)
  exact ⟨h.1, h.2.1⟩
